import Mathlib

/-!
Verification of the typed service-handle layer of CppMicroServices
(`framework/include/cppmicroservices/ServiceReference.h`).

The file under study defines the typed handle `ServiceReference<S>` as a
subclass of the untyped handle `ServiceReferenceBase`.  The base class, the
interface identity resolver `us_service_interface_iid<S>()` and the untyped
reverse lookup `ServiceReferenceFromService(std::shared_ptr<void> const&)`
are only declared there; their behaviour is modelled from the specification
(see the individual doc comments).  Interface types `S` are represented by
the interface-id string `us_service_interface_iid<S>()` yields for them,
written `want` below; service objects are represented by abstract numeric
identities.
-/

set_option autoImplicit false

/-- Registration Entry: the registry's record for one registered service.
Its identity is a unique entry id; it carries the set of interface ids the
service was declared under. -/
structure RegistrationEntry where
  entryId : Nat
  declaredIds : List String
deriving DecidableEq

/-- Modelled from the spec: `ServiceReferenceBase` (the Untyped Handle),
whose class definition is not under `src/` (only its subclass
`ServiceReference<S>` is).  Per the spec it is "a non-owning relation to a
Registration Entry ... and a bound interface id (string)"; an invalid
handle has "no entry relation". -/
structure ServiceReferenceBase where
  entry : Option RegistrationEntry
  interfaceId : String
deriving DecidableEq

/-- Modelled from the spec: default construction of the Untyped Handle
(`ServiceReferenceBase()`, not under `src/`) yields the invalid handle,
with no entry relation and an empty sentinel interface id. -/
def ServiceReferenceBase.invalid : ServiceReferenceBase :=
  { entry := none, interfaceId := "" }

/-- Modelled from the spec: `ServiceReferenceBase::GetInterfaceId` returns
"the id currently bound; empty/sentinel if invalid". -/
def ServiceReferenceBase.GetInterfaceId (r : ServiceReferenceBase) : String :=
  r.interfaceId

/-- Modelled from the spec: `ServiceReferenceBase::SetInterfaceId` "rebinds
the id without changing which entry it relates to". -/
def ServiceReferenceBase.SetInterfaceId (r : ServiceReferenceBase) (id : String) :
    ServiceReferenceBase :=
  { r with interfaceId := id }

/-- Modelled from the spec: `ServiceReferenceBase::IsConvertibleTo(id)` is
"true iff the related entry declares `id` among its interface ids"; with no
related entry it fails closed to `false`. -/
def ServiceReferenceBase.IsConvertibleTo (r : ServiceReferenceBase) (id : String) : Bool :=
  match r.entry with
  | some e => e.declaredIds.contains id
  | none => false

/-- Modelled from the spec: the boolean/validity check of the Untyped
Handle is true iff the handle relates to an entry (was never set to the
invalid/null state). -/
def ServiceReferenceBase.IsValid (r : ServiceReferenceBase) : Bool :=
  r.entry.isSome

/-- Modelled from the spec: `ServiceReferenceBase::operator==` is "defined
purely in terms of entry identity, never the bound interface id"; an entry's
identity is its unique entry id.  Two invalid handles (no entry relation)
compare equal, matching the recommended policy of the spec; a valid and an
invalid handle never compare equal. -/
def ServiceReferenceBase.eqBase (a b : ServiceReferenceBase) : Bool :=
  match a.entry, b.entry with
  | some ea, some eb => ea.entryId == eb.entryId
  | none, none => true
  | _, _ => false

/-- Modelled from the spec: `ServiceReferenceBase::Hash()` is "defined
purely in terms of entry identity, never the bound interface id" and must
agree on handles that compare equal.  The model hashes the entry relation
injectively: the invalid handle to `0`, a handle related to an entry to
its entry id plus one (mirroring the implementation hash of the underlying
registration pointer, null for invalid handles). -/
def ServiceReferenceBase.Hash (r : ServiceReferenceBase) : Nat :=
  match r.entry with
  | some e => e.entryId + 1
  | none => 0

/-- Modelled from the spec: `ServiceReferenceBase::operator=(std::nullptr_t)`,
the "assignment from a null sentinel (explicitly invalidate)"; it puts the
handle into the invalid state. -/
def ServiceReferenceBase.assignNull (_ : ServiceReferenceBase) : ServiceReferenceBase :=
  ServiceReferenceBase.invalid

/-- Modelled from the spec: `ServiceReferenceBase::operator=(ServiceReferenceBase const&)`,
imported into `ServiceReference<S>` by the using-declaration at line 103 of
`ServiceReference.h`; per the spec, assignment is "delegated to the wrapped
Untyped Handle unchanged", so the target takes the source's value. -/
def ServiceReferenceBase.assignBase (_target src : ServiceReferenceBase) :
    ServiceReferenceBase :=
  src

/-- Default constructor `ServiceReference<S>()` (ServiceReference.h line 82):
it delegates to `ServiceReferenceBase()`, producing the invalid handle. -/
def ServiceReference.defaultCtor : ServiceReferenceBase :=
  ServiceReferenceBase.invalid

/-- Copy constructor `ServiceReference<S>(ServiceReference const&)`
(ServiceReference.h line 84, defaulted): the copy has the source's value. -/
def ServiceReference.copyCtor (r : ServiceReferenceBase) : ServiceReferenceBase :=
  r

/-- Converting constructor `ServiceReference<S>(ServiceReferenceBase const& base)`
(ServiceReference.h lines 87 to 101), with `want` standing for the
interface id `us_service_interface_iid<S>()` of the non-void type `S`:
the base subobject is first copied from `base`; if its bound id differs
from `want`, it is either rebound to `want` (when convertible) or
null-assigned. -/
def ServiceReference.convert (want : String) (base : ServiceReferenceBase) :
    ServiceReferenceBase :=
  if base.GetInterfaceId ≠ want then
    if base.IsConvertibleTo want then
      base.SetInterfaceId want
    else
      base.assignNull
  else
    base

/-- Default constructor `ServiceReference<void>()` (ServiceReference.h
line 127): it delegates to `ServiceReferenceBase()`, producing the invalid
handle. -/
def ServiceReferenceVoid.defaultCtor : ServiceReferenceBase :=
  ServiceReferenceBase.invalid

/-- Converting constructor `ServiceReference<void>(ServiceReferenceBase const&)`
(ServiceReference.h line 132): the void specialization copies the base
subobject and performs no validation at all. -/
def ServiceReferenceVoid.convert (base : ServiceReferenceBase) : ServiceReferenceBase :=
  base

/-- Modelled from the spec: the untyped reverse lookup
`ServiceReferenceFromService(std::shared_ptr<void> const&)` (declared at
line 160 of `ServiceReference.h`, defined outside `src/`): "given a live
service object reference, return the Untyped Handle that the registry
associated with it at registration time, or the invalid handle if the
object is not currently tracked by the registry".  The registry's
object-to-handle association is the function `reg`; service objects are
abstract numeric identities. -/
def ServiceReferenceFromService (reg : Nat → Option ServiceReferenceBase) (obj : Nat) :
    ServiceReferenceBase :=
  match reg obj with
  | some h => h
  | none => ServiceReferenceBase.invalid

/-- Typed reverse lookup `ServiceReferenceFromService<T, U>` (ServiceReference.h
lines 171 to 176): it wraps the untyped lookup result in the converting
constructor of `ServiceReference<U>`; `want` stands for
`us_service_interface_iid<U>()`. -/
def ServiceReferenceFromServiceTyped (want : String)
    (reg : Nat → Option ServiceReferenceBase) (obj : Nat) : ServiceReferenceBase :=
  ServiceReference.convert want (ServiceReferenceFromService reg obj)

/-- The specialization `std::hash<cppmicroservices::ServiceReference<S>>`
(ServiceReference.h lines 181 to 189): `operator()` returns `arg.Hash()`. -/
def stdHashServiceReference (r : ServiceReferenceBase) : Nat :=
  r.Hash

/-- Concrete registration entry used by witnesses: entry id 5, declared
under the interface ids "IFoo" and "IBar". -/
def entFooBar : RegistrationEntry :=
  { entryId := 5, declaredIds := ["IFoo", "IBar"] }

/-- Concrete untyped handle used by witnesses: relates to `entFooBar`,
bound to "IFoo". -/
def hFoo : ServiceReferenceBase :=
  { entry := some entFooBar, interfaceId := "IFoo" }

/-- Concrete untyped handle used by witnesses: relates to `entFooBar`,
bound to "IBar". -/
def hBar : ServiceReferenceBase :=
  { entry := some entFooBar, interfaceId := "IBar" }

/-- C1: the converting constructor of `ServiceReference<S>` copies the
untyped handle as-is when its bound id already equals the id for `S`,
rebinds the bound id to the id for `S` keeping the same entry relation when
the handle is convertible to it, and otherwise yields the invalid handle
with the entry relation dropped. -/
theorem C1_converting_ctor_cases (want : String) (b : ServiceReferenceBase) :
    (b.GetInterfaceId = want → ServiceReference.convert want b = b) ∧
    (b.GetInterfaceId ≠ want → b.IsConvertibleTo want = true →
      (ServiceReference.convert want b).entry = b.entry ∧
      (ServiceReference.convert want b).GetInterfaceId = want) ∧
    (b.GetInterfaceId ≠ want → b.IsConvertibleTo want = false →
      ServiceReference.convert want b = ServiceReferenceBase.invalid) := by
  refine ⟨?_, ?_, ?_⟩
  · intro h
    simp [ServiceReference.convert, h]
  · intro h1 h2
    simp only [ServiceReferenceBase.GetInterfaceId] at h1
    simp [ServiceReference.convert, h1, h2, ServiceReferenceBase.SetInterfaceId,
      ServiceReferenceBase.GetInterfaceId]
  · intro h1 h2
    simp only [ServiceReferenceBase.GetInterfaceId] at h1
    simp [ServiceReference.convert, h1, h2, ServiceReferenceBase.assignNull,
      ServiceReferenceBase.GetInterfaceId]

/-- Witness for C1: all three branches at concrete inputs - copying a
handle already bound to "IFoo", rebinding it to the declared "IBar", and
degrading it to the invalid handle for the undeclared "IBaz". -/
theorem C1_converting_ctor_cases_witness :
    ServiceReference.convert "IFoo" hFoo = hFoo ∧
    (ServiceReference.convert "IBar" hFoo).entry = hFoo.entry ∧
    (ServiceReference.convert "IBar" hFoo).GetInterfaceId = "IBar" ∧
    ServiceReference.convert "IBaz" hFoo = ServiceReferenceBase.invalid := by
  have h1 := (C1_converting_ctor_cases "IFoo" hFoo).1 (by decide)
  have h2 := (C1_converting_ctor_cases "IBar" hFoo).2.1 (by decide) (by decide)
  have h3 := (C1_converting_ctor_cases "IBaz" hFoo).2.2 (by decide) (by decide)
  exact ⟨h1, h2.1, h2.2, h3⟩

/-- Helper: a handle produced by the converting constructor that is still
valid kept the entry relation of the handle it was constructed from. -/
theorem convert_entry_of_valid (want : String) (b : ServiceReferenceBase)
    (h : (ServiceReference.convert want b).IsValid = true) :
    (ServiceReference.convert want b).entry = b.entry := by
  unfold ServiceReference.convert at h ⊢
  by_cases h1 : b.GetInterfaceId = want
  · simp [h1]
  · by_cases h2 : b.IsConvertibleTo want
    · simp [h1, h2, ServiceReferenceBase.SetInterfaceId]
    · simp [h1, h2, ServiceReferenceBase.assignNull, ServiceReferenceBase.invalid,
        ServiceReferenceBase.IsValid] at h

/-- Helper: equality of untyped handles is reflexive. -/
theorem eqBase_refl (r : ServiceReferenceBase) :
    ServiceReferenceBase.eqBase r r = true := by
  unfold ServiceReferenceBase.eqBase
  cases r.entry <;> simp

/-- C2: for valid handles, `operator==` holds exactly when the two handles
relate to the same Registration Entry; it ignores the bound interface ids;
and equal handles always hash equal. -/
theorem C2_equality_entry_identity (a b : ServiceReferenceBase) :
    (a.IsValid = true → b.IsValid = true →
      (ServiceReferenceBase.eqBase a b = true ↔
        ∃ ea eb, a.entry = some ea ∧ b.entry = some eb ∧ ea.entryId = eb.entryId)) ∧
    (∀ s t : String,
      ServiceReferenceBase.eqBase (a.SetInterfaceId s) (b.SetInterfaceId t) =
        ServiceReferenceBase.eqBase a b) ∧
    (ServiceReferenceBase.eqBase a b = true → a.Hash = b.Hash) := by
  obtain ⟨ea, ia⟩ := a
  obtain ⟨eb, ib⟩ := b
  refine ⟨?_, ?_, ?_⟩
  · intro hva hvb
    cases ea with
    | none => simp [ServiceReferenceBase.IsValid] at hva
    | some xa =>
      cases eb with
      | none => simp [ServiceReferenceBase.IsValid] at hvb
      | some xb =>
        simp [ServiceReferenceBase.eqBase]
  · intro s t
    rfl
  · intro he
    cases ea <;> cases eb <;>
      simp_all [ServiceReferenceBase.eqBase, ServiceReferenceBase.Hash]

/-- Witness for C2: the two handles `hFoo` and `hBar` relate to the same
entry, so they compare equal and hash equal, even though their bound
interface ids differ. -/
theorem C2_equality_entry_identity_witness :
    ServiceReferenceBase.eqBase hFoo hBar = true ∧ hFoo.Hash = hBar.Hash := by
  have h := C2_equality_entry_identity hFoo hBar
  have he : ServiceReferenceBase.eqBase hFoo hBar = true :=
    (h.1 (by decide) (by decide)).2 ⟨entFooBar, entFooBar, rfl, rfl, rfl⟩
  exact ⟨he, h.2.2 he⟩

/-- C3: the default-constructed `ServiceReference<S>()`, for the generic
template and for the void specialization alike, is the invalid handle: it
evaluates to false in boolean context, it can be compared (two defaults
compare equal), and it can be hashed (the standard hash returns its
`Hash()` value, `0`). -/
theorem C3_default_invalid :
    ServiceReference.defaultCtor.IsValid = false ∧
    ServiceReferenceVoid.defaultCtor.IsValid = false ∧
    ServiceReferenceBase.eqBase ServiceReference.defaultCtor
      ServiceReferenceVoid.defaultCtor = true ∧
    stdHashServiceReference ServiceReference.defaultCtor =
      ServiceReference.defaultCtor.Hash ∧
    ServiceReference.defaultCtor.Hash = 0 := by
  refine ⟨rfl, rfl, rfl, rfl, rfl⟩

/-- C4: the void specialization `ServiceReference<void>` performs no
interface-id validation: converting any untyped handle yields exactly that
handle (same entry relation, same bound id, same validity), and in
particular a valid handle never degrades to the invalid one. -/
theorem C4_void_identity (b : ServiceReferenceBase) :
    ServiceReferenceVoid.convert b = b ∧
    (ServiceReferenceVoid.convert b).IsValid = b.IsValid ∧
    (b.IsValid = true → (ServiceReferenceVoid.convert b).IsValid = true) := by
  exact ⟨rfl, rfl, fun h => h⟩

/-- Witness for C4: converting the valid handle `hFoo` to the void
specialization leaves it unchanged and valid. -/
theorem C4_void_identity_witness :
    ServiceReferenceVoid.convert hFoo = hFoo ∧
    (ServiceReferenceVoid.convert hFoo).IsValid = true := by
  have h := C4_void_identity hFoo
  exact ⟨h.1, h.2.2 (by decide)⟩

/-- Concrete registry association used by witnesses: service object 7 is
tracked and maps to the handle `hFoo`; nothing else is tracked. -/
def regEx : Nat → Option ServiceReferenceBase :=
  fun n => if n = 7 then some hFoo else none

/-- C5: the typed reverse lookup is the composition of the untyped reverse
lookup with the typed converting constructor, so when the entry that
produced the object does not declare the requested interface id the typed
lookup yields an invalid handle. -/
theorem C5_reverse_lookup_composes (want : String)
    (reg : Nat → Option ServiceReferenceBase) (obj : Nat) :
    ServiceReferenceFromServiceTyped want reg obj =
      ServiceReference.convert want (ServiceReferenceFromService reg obj) ∧
    (∀ h e, reg obj = some h → h.entry = some e →
      h.interfaceId ∈ e.declaredIds → want ∉ e.declaredIds →
      (ServiceReferenceFromServiceTyped want reg obj).IsValid = false) := by
  constructor
  · rfl
  · intro h e hreg hentry hmem hnot
    have hlook : ServiceReferenceFromService reg obj = h := by
      simp [ServiceReferenceFromService, hreg]
    have hne : h.GetInterfaceId ≠ want := by
      intro hEq
      exact hnot (hEq ▸ hmem)
    have hconv : h.IsConvertibleTo want = false := by
      simp [ServiceReferenceBase.IsConvertibleTo, hentry, List.contains, hnot]
    unfold ServiceReferenceFromServiceTyped
    rw [hlook]
    simp [ServiceReference.convert, hne, hconv, ServiceReferenceBase.assignNull,
      ServiceReferenceBase.invalid, ServiceReferenceBase.IsValid]

/-- Witness for C5: looking up service object 7 (registered under "IFoo"
and "IBar" via `hFoo`) with the undeclared interface "IBaz" yields an
invalid typed handle. -/
theorem C5_reverse_lookup_composes_witness :
    (ServiceReferenceFromServiceTyped "IBaz" regEx 7).IsValid = false := by
  exact (C5_reverse_lookup_composes "IBaz" regEx 7).2 hFoo entFooBar (by decide)
    (by decide) (by decide) (by decide)

/-- C6: the converting constructor is a total function whose result is
always one of the three non-exceptional outcomes (copy, rebind, invalid);
on a conversion mismatch it terminates normally with the invalid handle,
never an exception or panic (the embedding returns a plain value, with no
error channel, mirroring the throw-free source). -/
theorem C6_mismatch_silent_degrade (want : String) (b : ServiceReferenceBase) :
    (ServiceReference.convert want b = b ∨
     ServiceReference.convert want b = b.SetInterfaceId want ∨
     ServiceReference.convert want b = ServiceReferenceBase.invalid) ∧
    (b.GetInterfaceId ≠ want → b.IsConvertibleTo want = false →
      ServiceReference.convert want b = ServiceReferenceBase.invalid ∧
      (ServiceReference.convert want b).IsValid = false) := by
  constructor
  · unfold ServiceReference.convert
    by_cases h1 : b.GetInterfaceId = want
    · left
      simp [h1]
    · by_cases h2 : b.IsConvertibleTo want
      · right; left
        simp [h1, h2]
      · right; right
        simp [h1, h2, ServiceReferenceBase.assignNull]
  · intro h1 h2
    have hinv : ServiceReference.convert want b = ServiceReferenceBase.invalid := by
      simp [ServiceReference.convert, h1, h2, ServiceReferenceBase.assignNull]
    exact ⟨hinv, by rw [hinv]; rfl⟩

/-- Witness for C6: converting `hFoo` to the undeclared "IBaz" produces
the invalid handle, observably invalid through the boolean check. -/
theorem C6_mismatch_silent_degrade_witness :
    ServiceReference.convert "IBaz" hFoo = ServiceReferenceBase.invalid ∧
    (ServiceReference.convert "IBaz" hFoo).IsValid = false := by
  exact (C6_mismatch_silent_degrade "IBaz" hFoo).2 (by decide) (by decide)

/-- Counterexample to C7 as stated: `hFoo` relates to the entry `entFooBar`
(declared ids "IFoo" and "IBar" only), so `ServiceReference<Foo>(hFoo)` and
`ServiceReference<Baz>(hFoo)` are both typed handles built from untyped
handles relating to the same Registration Entry, yet the second conversion
fails, and the standard hash of the resulting invalid handle differs from
the hash of the first. -/
theorem C7_hash_counterexample :
    stdHashServiceReference (ServiceReference.convert "IFoo" hFoo) ≠
      stdHashServiceReference (ServiceReference.convert "IBaz" hFoo) := by
  decide

/-- C7 (amended): when both conversions succeed (both typed handles are
valid), typed handles built over the same Registration Entry hash
identically under the standard hash, whatever interface types they carry;
and the standard hash specialization returns exactly the handle's `Hash()`
for every interface type. -/
theorem C7_hash_same_entry (wa wb : String) (a b : ServiceReferenceBase)
    (ea eb : RegistrationEntry) (hea : a.entry = some ea) (heb : b.entry = some eb)
    (hid : ea.entryId = eb.entryId)
    (hva : (ServiceReference.convert wa a).IsValid = true)
    (hvb : (ServiceReference.convert wb b).IsValid = true) :
    stdHashServiceReference (ServiceReference.convert wa a) =
      stdHashServiceReference (ServiceReference.convert wb b) ∧
    stdHashServiceReference (ServiceReference.convert wa a) =
      (ServiceReference.convert wa a).Hash := by
  have h1 := convert_entry_of_valid wa a hva
  have h2 := convert_entry_of_valid wb b hvb
  constructor
  · unfold stdHashServiceReference ServiceReferenceBase.Hash
    rw [h1, h2, hea, heb]
    simp [hid]
  · rfl

/-- Witness for C7 (amended): `ServiceReference<Foo>(hFoo)` and
`ServiceReference<Bar>(hBar)` are both valid, are built over the same
entry, and hash identically. -/
theorem C7_hash_same_entry_witness :
    stdHashServiceReference (ServiceReference.convert "IFoo" hFoo) =
      stdHashServiceReference (ServiceReference.convert "IBar" hBar) := by
  exact (C7_hash_same_entry "IFoo" "IBar" hFoo hBar entFooBar entFooBar rfl rfl rfl
    (by decide) (by decide)).1

/-- Concrete untyped handle used for the C8 counterexample: relates to a
distinct entry (id 9) declared only under "IQux", bound to "IQux". -/
def hQux : ServiceReferenceBase :=
  { entry := some { entryId := 9, declaredIds := ["IQux"] }, interfaceId := "IQux" }

/-- Counterexample to C8 as stated: the layer's assignment surface includes
the base-class assignment imported by the using-declaration at line 103 of
`ServiceReference.h`, which is delegated to the untyped handle unvalidated.
Assigning the untyped handle `hQux` (bound to "IQux") to the handle
`ServiceReference<Foo>(hFoo)` - which satisfies the invariant for the
interface id "IFoo" - produces a valid handle whose bound id is not
"IFoo": the invariant is not preserved by that assignment. -/
theorem C8_invariant_counterexample :
    (ServiceReferenceBase.assignBase (ServiceReference.convert "IFoo" hFoo)
      hQux).IsValid = true ∧
    (ServiceReferenceBase.assignBase (ServiceReference.convert "IFoo" hFoo)
      hQux).GetInterfaceId ≠ "IFoo" := by
  decide

/-- C8 (amended): whenever a `ServiceReference<S>` built by the layer is
valid, its bound interface id equals the id for `S`; default construction,
copy construction, converting construction and null assignment each
preserve (or establish) this invariant - only the unvalidated assignment
from an arbitrary untyped handle, imported from the base class, can
violate it. -/
theorem C8_invariant_preservation (want : String) (b r : ServiceReferenceBase) :
    (ServiceReference.defaultCtor.IsValid = true →
      ServiceReference.defaultCtor.GetInterfaceId = want) ∧
    ((r.IsValid = true → r.GetInterfaceId = want) →
      (ServiceReference.copyCtor r).IsValid = true →
      (ServiceReference.copyCtor r).GetInterfaceId = want) ∧
    ((ServiceReference.convert want b).IsValid = true →
      (ServiceReference.convert want b).GetInterfaceId = want) ∧
    (r.assignNull.IsValid = true → r.assignNull.GetInterfaceId = want) := by
  refine ⟨?_, ?_, ?_, ?_⟩
  · intro h
    exact absurd h (by decide)
  · intro hr h
    exact hr h
  · intro h
    by_cases h1 : b.GetInterfaceId = want
    · have hb : ServiceReference.convert want b = b := by
        simp [ServiceReference.convert, h1]
      rw [hb]
      exact h1
    · by_cases h2 : b.IsConvertibleTo want
      · have hb : ServiceReference.convert want b = b.SetInterfaceId want := by
          simp [ServiceReference.convert, h1, h2]
        rw [hb]
        rfl
      · have hb : ServiceReference.convert want b = ServiceReferenceBase.invalid := by
          simp [ServiceReference.convert, h1, h2, ServiceReferenceBase.assignNull]
        rw [hb] at h
        simp [ServiceReferenceBase.invalid, ServiceReferenceBase.IsValid] at h
  · intro h
    simp [ServiceReferenceBase.assignNull, ServiceReferenceBase.invalid,
      ServiceReferenceBase.IsValid] at h

/-- Witness for C8 (amended): at the concrete inputs, the converting
constructor establishes the invariant for "IBar", and the copy of that
handle keeps it. -/
theorem C8_invariant_preservation_witness :
    (ServiceReference.convert "IBar" hFoo).GetInterfaceId = "IBar" ∧
    (ServiceReference.copyCtor (ServiceReference.convert "IBar" hFoo)).GetInterfaceId
      = "IBar" := by
  have h := C8_invariant_preservation "IBar" hFoo (ServiceReference.convert "IBar" hFoo)
  have h3 := h.2.2.1 (by decide)
  exact ⟨h3, h.2.1 (fun _ => h3) (by decide)⟩

/-- C9: two typed handles produced by the same failed conversion compare
equal: when the handle `h0` is not convertible to the requested id, both
constructions yield the invalid handle, and invalid handles constructed
identically compare equal. -/
theorem C9_failed_conversions_equal (want : String) (h0 : ServiceReferenceBase)
    (hic : h0.IsConvertibleTo want = false) :
    ServiceReferenceBase.eqBase (ServiceReference.convert want h0)
      (ServiceReference.convert want h0) = true := by
  exact eqBase_refl (ServiceReference.convert want h0)

/-- Witness for C9: `hFoo` relates to an entry that does not declare
"IBaz", and the two identically failed conversions compare equal. -/
theorem C9_failed_conversions_equal_witness :
    ServiceReferenceBase.eqBase (ServiceReference.convert "IBaz" hFoo)
      (ServiceReference.convert "IBaz" hFoo) = true := by
  exact C9_failed_conversions_equal "IBaz" hFoo (by decide)

/-- C10: the converting construction to `ServiceReference<S>` is
idempotent: converting the result of a conversion to the same interface id
changes nothing. -/
theorem C10_convert_idempotent (want : String) (b : ServiceReferenceBase) :
    ServiceReference.convert want (ServiceReference.convert want b) =
      ServiceReference.convert want b := by
  by_cases h1 : b.GetInterfaceId = want
  · have hb : ServiceReference.convert want b = b := by
      simp [ServiceReference.convert, h1]
    rw [hb, hb]
  · by_cases h2 : b.IsConvertibleTo want
    · have hb : ServiceReference.convert want b = b.SetInterfaceId want := by
        simp [ServiceReference.convert, h1, h2]
      have hid : (b.SetInterfaceId want).GetInterfaceId = want := rfl
      rw [hb]
      simp [ServiceReference.convert, hid]
    · have hb : ServiceReference.convert want b = ServiceReferenceBase.invalid := by
        simp [ServiceReference.convert, h1, h2, ServiceReferenceBase.assignNull]
      rw [hb]
      by_cases h3 : (ServiceReferenceBase.invalid).GetInterfaceId = want
      · simp [ServiceReference.convert, h3]
      · have h4 : (ServiceReferenceBase.invalid).IsConvertibleTo want = false := rfl
        simp [ServiceReference.convert, h3, h4, ServiceReferenceBase.assignNull]
